import Mathlib

/-!
# Shallow embedding of the ball-vision-seeker detection engines

This file embeds, in Lean 4, the asynchronous detection-request machinery of
the repository:

* the worker-variant `BallDetectionEngine` from
  `src/components/AdvancedSoccerDetector.tsx` (token map, per-request timeout
  timer, `onmessage` / `onerror` handlers, `terminateWorker`, the
  `postMessage` try/catch, and the in-process fallback);
* the circle-to-bounding-box mapping and the Gaussian-blur kernel coercion of
  `src/workers/opencv.worker.ts`;
* the `detectWithOpenCV` path of the canvas-based engine in
  `src/components/BallDetectionEngine.tsx` (kernel handling and mat cleanup);
* the Roboflow-variant `detectBalls` credential gate and HTTP status check of
  `src/components/BallDetectionEngine.tsx`.

Modelling conventions:
* JavaScript numbers are modelled as `ℚ` (the values involved are exact
  decimals well inside float64 range, so float64 arithmetic on them is exact
  for the concrete scenarios we evaluate) and `Date` values as epoch
  milliseconds (`Int`).
* A settled promise is recorded in an append-only log `settled` of
  `(token, outcome)` pairs: calling the stored `resolve` appends
  `(token, .resolved r)`, calling `reject` appends `(token, .rejected e)`.
  "Exactly once per token" is then `Nodup` of the logged tokens.
* The source keys its `Map` by the string `` `req-${n}` `` generated from the
  monotone counter `nextRequestId`; since `n ↦ "req-" ++ toString n` is
  injective, we key by the counter value `n : Nat` itself.
* Each handler is a total Lean function on the engine state; "does not throw"
  is reflected by totality (no error outcome exists for the handler itself).
* Timers are event-driven: `timerFire tok fileName` models the timeout
  callback (a closure capturing the request's file name) actually firing;
  `clearTimeout` is modelled by the guards that make a late callback a no-op
  (the source's callback guards on `requests.has`, so a cleared-or-stale timer
  firing has no effect, which the model mirrors).
-/

/-- Normalized bounding box, fields as in the source's `bbox` object. -/
structure BBox where
  x : ℚ
  y : ℚ
  width : ℚ
  height : ℚ
  deriving DecidableEq, Repr

/-- One detection: confidence plus normalized bounding box. -/
structure Detection where
  confidence : ℚ
  bbox : BBox
  deriving DecidableEq, Repr

/-- The `DetectionResult` shape from `SoccerBallDetector.tsx`, with `processedAt : Date`
modelled as epoch milliseconds. -/
structure DetectionResult where
  id : String
  imageUrl : String
  originalImageUrl : String
  fileName : String
  detections : List Detection
  processedAtMs : Int
  deriving DecidableEq, Repr

/-- A JavaScript `Error` value: `name` and `message`. `new Error(msg)` has
name `"Error"`. -/
structure JsError where
  name : String
  message : String
  deriving DecidableEq, Repr

/-- The outcome delivered to a pending promise: `resolve(r)` or `reject(e)`. -/
inductive Settle where
  | resolved (r : DetectionResult)
  | rejected (e : JsError)
  deriving DecidableEq, Repr

/-- JavaScript `s1 || s2` for an optional string `s1` (absent or empty string
is falsy). Used for `error.name || 'WorkerError'` etc. -/
def jsOrStr (o : Option String) (d : String) : String :=
  match o with
  | none => d
  | some s => if s = "" then d else s

/-- The `error` payload a worker response may carry:
`{message: string, name?: string}`. -/
structure WorkerErrorPayload where
  message : String
  name : Option String
  deriving DecidableEq, Repr

/-- State of the worker-variant `BallDetectionEngine`
(`AdvancedSoccerDetector.tsx`): `worker` is whether `this.worker !== null`,
`requests` is the token map (tokens only: the stored resolver/rejecter pair is
represented by the `settled` log, the timer by the `timerFire` event),
`nextRequestId` the monotone counter, and `settled` the append-only log of
delivered outcomes. -/
structure EngineState where
  worker : Bool
  requests : List Nat
  nextRequestId : Nat
  settled : List (Nat × Settle)
  deriving DecidableEq, Repr

/-- Tokens that have already been settled (resolved or rejected). -/
def EngineState.settledTokens (s : EngineState) : List Nat :=
  s.settled.map Prod.fst

/-- A freshly constructed engine whose worker was created successfully. -/
def EngineState.init : EngineState :=
  { worker := true, requests := [], nextRequestId := 0, settled := [] }

/-- The hardcoded per-request timeout window (`const timeout = 30000`). -/
def requestTimeoutMs : Nat := 30000

/-- The timeout rejection message:
`` `Request to worker timed out after ${timeout / 1000}s for image ${fileName}` ``. -/
def timeoutMessage (fileName : String) : String :=
  "Request to worker timed out after " ++ toString (requestTimeoutMs / 1000) ++
    "s for image " ++ fileName

/-- The worker `onmessage` handler (`AdvancedSoccerDetector.tsx` lines
765-787).  Looks the token up; if absent the message is dropped (the state is
returned unchanged).  If present: an `error` field rejects with the carried
error (`||`-defaulted), else a `result` field resolves with the result (the
source revives `processedAt` via `new Date(...)`, an identity on our epoch-ms
model), else the request is rejected with the invalid-format error; in every
present-token branch the entry is deleted. -/
def handleMessage (s : EngineState) (tok : Nat) (error : Option WorkerErrorPayload)
    (result : Option DetectionResult) : EngineState :=
  if tok ∈ s.requests then
    let out : Settle :=
      match error with
      | some e =>
          .rejected { name := jsOrStr e.name "WorkerError",
                      message := jsOrStr (some e.message) "Unknown worker error" }
      | none =>
          match result with
          | some r => .resolved { r with processedAtMs := r.processedAtMs }
          | none => .rejected { name := "Error",
                                message := "Worker returned an invalid message format." }
    { s with requests := s.requests.erase tok, settled := s.settled ++ [(tok, out)] }
  else s

/-- The worker `onerror` handler (`AdvancedSoccerDetector.tsx` lines 789-797):
rejects every pending request with `` `Worker failed: ${error.message ||
'Underlying worker script error'}` ``, clears the map, and nulls the worker. -/
def handleWorkerError (s : EngineState) (message : String) : EngineState :=
  let e : JsError :=
    { name := "Error",
      message := "Worker failed: " ++ jsOrStr (some message) "Underlying worker script error" }
  { s with
      requests := [],
      settled := s.settled ++ s.requests.map (fun t => (t, Settle.rejected e)),
      worker := false }

/-- The per-request timeout callback (`AdvancedSoccerDetector.tsx` lines
817-822) firing for token `tok`; the closure captured `fileName`.  If the
token is still in the map it is removed and the request rejected with the
timeout error; otherwise nothing happens. -/
def timerFire (s : EngineState) (tok : Nat) (fileName : String) : EngineState :=
  if tok ∈ s.requests then
    { s with
        requests := s.requests.erase tok,
        settled := s.settled ++ [(tok, Settle.rejected ⟨"Error", timeoutMessage fileName⟩)] }
  else s

/-- What `detectBalls` did with a call: used the in-process fallback, or
registered token `tok` and posted to the worker with a `timeoutMs`-window
timer armed. -/
inductive DispatchKind where
  | fallback
  | posted (tok : Nat) (timeoutMs : Nat)
  deriving DecidableEq, Repr

/-- The worker variant's `BallDetectionEngine.detectBalls`
(`AdvancedSoccerDetector.tsx` lines 807-842).  If the worker is gone the call
is served by `fallbackDetection` (state untouched).  Otherwise a fresh token
is taken from the counter, a 30000 ms timer armed, the entry registered, and
the task posted; if `postMessage` throws synchronously (`postThrows = some
detail`), the just-registered entry is deleted, the timer cleared, and the
promise rejected with
`` `Failed to send message to worker: ${errorDetail}` ``. -/
def detectBalls (s : EngineState) (postThrows : Option String) :
    EngineState × DispatchKind :=
  if s.worker then
    let tok := s.nextRequestId
    let s1 : EngineState :=
      { s with nextRequestId := s.nextRequestId + 1, requests := s.requests ++ [tok] }
    match postThrows with
    | none => (s1, .posted tok requestTimeoutMs)
    | some detail =>
        ({ s1 with
            requests := s1.requests.erase tok,
            settled := s1.settled ++
              [(tok, Settle.rejected
                  ⟨"Error", "Failed to send message to worker: " ++ detail⟩)] },
         .posted tok requestTimeoutMs)
  else (s, .fallback)

/-- The worker variant's `BallDetectionEngine.terminateWorker`
(`AdvancedSoccerDetector.tsx` lines 921-932).  Guarded on `this.worker`: when
the worker exists it is terminated and nulled, every pending request's timer
is cleared and its promise rejected with `'Worker terminated by explicit
call.'`, and the map is cleared; when the worker is already gone the call does
nothing. -/
def terminateWorker (s : EngineState) : EngineState :=
  if s.worker then
    { s with
        worker := false,
        settled := s.settled ++ s.requests.map
          (fun t => (t, Settle.rejected ⟨"Error", "Worker terminated by explicit call."⟩)),
        requests := [] }
  else s

/-- The events that drive the worker-variant engine. -/
inductive Ev where
  | submit (postThrows : Option String)
  | response (tok : Nat) (error : Option WorkerErrorPayload) (result : Option DetectionResult)
  | timer (tok : Nat) (fileName : String)
  | workerError (message : String)
  | terminate
  deriving Repr

/-- One step of the engine: dispatch an event to its handler. -/
def engineStep (s : EngineState) (e : Ev) : EngineState :=
  match e with
  | .submit postThrows => (detectBalls s postThrows).1
  | .response tok error result => handleMessage s tok error result
  | .timer tok fileName => timerFire s tok fileName
  | .workerError message => handleWorkerError s message
  | .terminate => terminateWorker s

/-- The correlation invariant: settled tokens are pairwise distinct (each
promise was settled at most once), the map has no duplicate tokens, no pending
token has already been settled, and every token ever issued is below the
counter. -/
def EngineInv (s : EngineState) : Prop :=
  s.settledTokens.Nodup ∧
  s.requests.Nodup ∧
  (∀ t ∈ s.requests, t ∉ s.settledTokens) ∧
  (∀ t ∈ s.requests, t < s.nextRequestId) ∧
  (∀ t ∈ s.settledTokens, t < s.nextRequestId)

instance (s : EngineState) : Decidable (EngineInv s) := by
  unfold EngineInv
  infer_instance

/-! ## Worker detection pipeline (`opencv.worker.ts`) -/

/-- The worker's `BallDetectionForWorker` record: one circle found by the Hough transform together
with the synthesized confidence. -/
structure BallCircle where
  x : ℚ
  y : ℚ
  radius : ℚ
  confidence : ℚ
  deriving DecidableEq, Repr

/-- The circle→bbox conversion used by both the worker (lines 209-214) and the
canvas engine (lines 243-251 / 380-388):
`x=(cx-r)/W, y=(cy-r)/H, width=2r/W, height=2r/H`. -/
def circleToBBox (cx cy r W H : ℚ) : BBox :=
  { x := (cx - r) / W, y := (cy - r) / H, width := r * 2 / W, height := r * 2 / H }

/-- The worker's read loop over the `HoughCircles` output mat
(`opencv.worker.ts` lines 179-188): for `i < circles.cols` it reads the flat
`data32F` triple at `3i, 3i+1, 3i+2` and synthesizes confidence
`0.8 + Math.random() * 0.15` (the `i`-th random draw `u_i` is a parameter). -/
def detectedBallsOfMat (data32F : List ℚ) (cols : Nat) (rand : List ℚ) : List BallCircle :=
  (List.range cols).map fun i =>
    { x := data32F.getD (i * 3) 0,
      y := data32F.getD (i * 3 + 1) 0,
      radius := data32F.getD (i * 3 + 2) 0,
      confidence := 8/10 + rand.getD i 0 * (15/100) }

/-- The worker's `detections` field construction (`opencv.worker.ts` lines
207-215): each found ball is mapped to a `Detection` with the normalized
bounding box derived from its center and radius. -/
def workerResultDetections (balls : List BallCircle) (W H : ℚ) : List Detection :=
  balls.map fun d => { confidence := d.confidence, bbox := circleToBBox d.x d.y d.radius W H }

/-- The worker's blur-kernel coercion (`opencv.worker.ts` lines 156-159):
`params.blurKernelSize && params.blurKernelSize > 0 ? (size % 2 === 0 ? size+1
: size) : 5`.  An absent (`none`) or zero value is falsy and yields 5; a
negative value fails the `> 0` test and yields 5; an even positive value is
bumped to the next odd value; an odd positive value passes through. -/
def blurKernelVal (blurKernelSize : Option Int) : Int :=
  match blurKernelSize with
  | none => 5
  | some v => if v ≠ 0 ∧ 0 < v then (if v % 2 = 0 then v + 1 else v) else 5

/-- The `detectWithOpenCV` kernel (`BallDetectionEngine.tsx` line 333):
`params.blurKernel || 5` — no odd coercion, only falsy-defaulting. -/
def detectWithOpenCVKsize (blurKernel : Option Int) : Int :=
  match blurKernel with
  | none => 5
  | some v => if v = 0 then 5 else v

/-! ## Mat lifecycle (C8) -/

/-- The four OpenCV mats allocated during a local detection. -/
inductive MatName where
  | src
  | gray
  | circles
  | blurred
  deriving DecidableEq, Repr

/-- Which of the four mat locals are non-null (allocated). -/
structure MatSlots where
  src : Bool
  gray : Bool
  circles : Bool
  blurred : Bool
  deriving DecidableEq, Repr

/-- Whether a given mat slot is allocated. -/
def MatSlots.has (s : MatSlots) : MatName → Bool
  | .src => s.src
  | .gray => s.gray
  | .circles => s.circles
  | .blurred => s.blurred

/-- Step index, inside the worker's `try` body (`opencv.worker.ts` lines
134-219), at which each mat local is assigned: the image pipeline occupies
steps 0-6 (fetch, ok-check, blob, bitmap, canvas, ctx-check, getImageData),
then `src = cv.matFromImageData` (7), `gray = new cv.Mat()` (8),
`circles = new cv.Mat()` (9), `blurred = new cv.Mat()` (10); the remaining
steps (cvtColor 11, GaussianBlur 12, HoughCircles 13, read loop 14, draw 15,
convertToBlob 16, FileReader 17, postMessage 18) allocate no mats. -/
def workerAllocStep : MatName → Nat
  | .src => 7
  | .gray => 8
  | .circles => 9
  | .blurred => 10

/-- The mat slots at the moment control reaches the worker's `finally`:
everything whose assignment step completed before the throw (all four on the
success path `throwStep = none`). -/
def workerSlotsAt (throwStep : Option Nat) : MatSlots :=
  let upTo : Nat → Bool := fun k =>
    match throwStep with
    | none => true
    | some j => decide (k < j)
  { src := upTo (workerAllocStep .src),
    gray := upTo (workerAllocStep .gray),
    circles := upTo (workerAllocStep .circles),
    blurred := upTo (workerAllocStep .blurred) }

/-- The worker's `finally` block (`opencv.worker.ts` lines 235-241):
`src?.delete(); gray?.delete(); blurred?.delete(); circles?.delete()` — each
non-null mat is deleted, in that order, on success and exception alike. -/
def workerFinallyReleases (s : MatSlots) : List MatName :=
  (if s.src then [MatName.src] else []) ++
  (if s.gray then [MatName.gray] else []) ++
  (if s.blurred then [MatName.blurred] else []) ++
  (if s.circles then [MatName.circles] else [])

/-- Step index inside `detectWithOpenCV`'s `try` body
(`BallDetectionEngine.tsx` lines 316-397) at which each mat is assigned:
canvas setup is step 0, `src = matFromImageData` (1), `gray = new Mat` (2),
`circles = new Mat` (3), `cvtColor` (4), `blurred = new Mat` (5), `ksize` (6),
`GaussianBlur` (7), `HoughCircles` (8), read loop (9), redraw (10), then the
four `delete()` calls and `resolve`. -/
def opencvAllocStep : MatName → Nat
  | .src => 1
  | .gray => 2
  | .circles => 3
  | .blurred => 5

/-- Mat slots live when `detectWithOpenCV` exits its `try` body (throw at the
given step, or success). -/
def opencvSlotsAt (throwStep : Option Nat) : MatSlots :=
  let upTo : Nat → Bool := fun k =>
    match throwStep with
    | none => true
    | some j => decide (k < j)
  { src := upTo (opencvAllocStep .src),
    gray := upTo (opencvAllocStep .gray),
    circles := upTo (opencvAllocStep .circles),
    blurred := upTo (opencvAllocStep .blurred) }

/-- The `delete()` calls `detectWithOpenCV` actually performs on each exit
path (`BallDetectionEngine.tsx` lines 369-373 and 393-397): on success all
four mats are deleted; the `catch` branch only logs and falls back to
`detectBalls` — it deletes nothing. -/
def opencvReleases (throwStep : Option Nat) : List MatName :=
  match throwStep with
  | none => [.src, .gray, .blurred, .circles]
  | some _ => []

/-! ## Roboflow variant (`BallDetectionEngine.tsx` lines 11-196) -/

/-- Truthiness of `this.roboflowApiKey : string | null` (absent or empty
string is falsy). -/
def jsTruthyStr (o : Option String) : Bool :=
  match o with
  | none => false
  | some s => if s = "" then false else true

/-- Test whether `s` starts with `p` (the JS `String.prototype.startsWith`),
computed on the underlying character lists so that concrete instances reduce. -/
def strStartsWith (s p : String) : Bool :=
  p.data.isPrefixOf s.data

/-- Outcome of the single `fetch` to the Roboflow endpoint. -/
inductive FetchOutcome where
  | ok
  | httpError (status : Nat) (statusText : String)
  | reject (e : JsError)
  deriving DecidableEq, Repr

/-- Oracles for the Roboflow variant's effectful collaborators:
`convertToBase64` (image load + canvas re-encode), the `fetch` call, and
`processRoboflowResult` (image load + annotation + json mapping). -/
structure RoboflowEnv where
  convert : Except JsError String
  fetchOutcome : FetchOutcome
  processed : Except JsError DetectionResult
  deriving Repr

/-- The Roboflow variant's `detectBalls` (`BallDetectionEngine.tsx` lines
26-82), returning the delivered outcome together with the number of `fetch`
invocations performed.  The credential gate (lines 27-29) throws before the
promise executor runs, so a falsy key rejects immediately with zero fetches.
Otherwise: blob/data URLs are converted to base64 first, the endpoint is
fetched once, a non-ok response throws
`` `Roboflow API error: ${response.status} ${response.statusText}` ``, and an
ok response is mapped through `processRoboflowResult`; any throw is caught and
delivered as a rejection.  (The surrounding pending-map/timer wrapper mirrors
the worker variant and is modelled by `EngineState`.) -/
def roboflowDetectBalls (apiKey : Option String) (imageUrl : String)
    (env : RoboflowEnv) : Except JsError DetectionResult × Nat :=
  if jsTruthyStr apiKey = false then
    (.error ⟨"Error", "Roboflow API key is required. Please set your API key first."⟩, 0)
  else
    let conv : Except JsError String :=
      if strStartsWith imageUrl "blob:" || strStartsWith imageUrl "data:" then env.convert
      else .ok imageUrl
    match conv with
    | .error e => (.error e, 0)
    | .ok _ =>
      match env.fetchOutcome with
      | .reject e => (.error e, 1)
      | .httpError status statusText =>
          (.error ⟨"Error",
            "Roboflow API error: " ++ toString status ++ " " ++ statusText⟩, 1)
      | .ok =>
          match env.processed with
          | .error e => (.error e, 1)
          | .ok r => (.ok r, 1)

/-! ## In-process fallback (`AdvancedSoccerDetector.tsx` lines 844-919) -/

/-- The random draws `fallbackDetection` consumes: one uniform draw for the
ball count, four per ball (position x, position y, radius, confidence), and
the random id string. -/
structure FallbackRand where
  numBallsU : ℚ
  balls : List (ℚ × ℚ × ℚ × ℚ)
  idStr : String
  deriving Repr

/-- The degraded in-process `fallbackDetection` of the worker variant
(`AdvancedSoccerDetector.tsx` lines 844-919), on its `img.onload` path:
`numBalls = floor(u*3)+1` balls are synthesized at random positions
(`x = u1*(W-100)+50`, `y = u2*(H-100)+50`, `radius = u3*30+20`,
`confidence = 0.7+u4*0.3`), drawn onto a canvas copy (the PNG data-URL
encoding of the canvas is the opaque parameter `encodedPng`), and a
`DetectionResult` with the normalized bounding boxes is resolved. -/
def fallbackDetection (imageUrl fileName : String) (W H : ℚ) (rand : FallbackRand)
    (encodedPng : String) (nowMs : Int) : DetectionResult :=
  let numBalls : Nat := (Rat.floor (rand.numBallsU * 3)).toNat + 1
  let dets : List Detection := (List.range numBalls).map fun i =>
    let draw := rand.balls.getD i (0, 0, 0, 0)
    let x := draw.1 * (W - 100) + 50
    let y := draw.2.1 * (H - 100) + 50
    let radius := draw.2.2.1 * 30 + 20
    let confidence := 7/10 + draw.2.2.2 * (3/10)
    { confidence := confidence, bbox := circleToBBox x y radius W H }
  { id := rand.idStr, imageUrl := encodedPng, originalImageUrl := imageUrl,
    fileName := fileName, detections := dets, processedAtMs := nowMs }

/-! ## Helper lemmas -/

/-- Settling one pending token (remove from the map, append one outcome)
preserves the correlation invariant. -/
theorem settleOne_inv (s : EngineState) (tok : Nat) (out : Settle)
    (h : EngineInv s) (htok : tok ∈ s.requests) :
    EngineInv { s with requests := s.requests.erase tok,
                       settled := s.settled ++ [(tok, out)] } := by
  obtain ⟨h1, h2, h3, h4, h5⟩ := h
  refine ⟨?_, ?_, ?_, ?_, ?_⟩
  · simp only [EngineState.settledTokens, List.map_append, List.map_cons, List.map_nil,
      List.nodup_append, List.nodup_cons, List.nodup_nil]
    refine ⟨h1, by simp, ?_⟩
    intro a ha
    simp only [List.mem_singleton]
    intro hEq
    exact h3 tok htok (hEq ▸ ha)
  · exact h2.erase tok
  · intro t ht
    have htmem : t ∈ s.requests := List.mem_of_mem_erase ht
    have htne : t ≠ tok := ((h2.mem_erase_iff).mp ht).1
    simp only [EngineState.settledTokens, List.map_append, List.map_cons, List.map_nil,
      List.mem_append, List.mem_singleton]
    rintro (hc | hc)
    · exact h3 t htmem hc
    · exact htne hc
  · intro t ht
    exact h4 t (List.mem_of_mem_erase ht)
  · intro t ht
    simp only [EngineState.settledTokens, List.map_append, List.map_cons, List.map_nil,
      List.mem_append, List.mem_singleton] at ht
    rcases ht with hc | hc
    · exact h5 t hc
    · exact hc ▸ h4 tok htok

/-- Rejecting every pending request at once and clearing the map preserves the
correlation invariant (the `onerror` / `terminateWorker` shape). -/
theorem rejectAll_inv (s : EngineState) (e : JsError) (w : Bool) :
    EngineInv s →
    EngineInv { s with requests := [],
                       settled := s.settled ++ s.requests.map (fun t => (t, Settle.rejected e)),
                       worker := w } := by
  rintro ⟨h1, h2, h3, h4, h5⟩
  have hmap : (s.requests.map (fun t => (t, Settle.rejected e))).map Prod.fst = s.requests := by
    simp [Function.comp_def]
  refine ⟨?_, by simp, by simp, by simp, ?_⟩
  · show ((s.settled ++ s.requests.map (fun t => (t, Settle.rejected e))).map Prod.fst).Nodup
    rw [List.map_append, hmap, List.nodup_append]
    refine ⟨h1, h2, ?_⟩
    intro a ha hb
    exact h3 a hb ha
  · intro t ht
    have ht' : t ∈ s.settled.map Prod.fst ++ s.requests := by
      have h0 : EngineState.settledTokens
          { s with requests := ([] : List Nat),
                   settled := s.settled ++ s.requests.map (fun t => (t, Settle.rejected e)),
                   worker := w } =
          s.settled.map Prod.fst ++ s.requests := by
        simp only [EngineState.settledTokens, List.map_append, hmap]
      exact h0 ▸ ht
    rcases List.mem_append.mp ht' with hc | hc
    · exact h5 t hc
    · exact h4 t hc

/-- Registering the fresh token (the counter value) and bumping the counter
preserves the correlation invariant. -/
theorem register_inv (s : EngineState) (h : EngineInv s) :
    EngineInv { s with nextRequestId := s.nextRequestId + 1,
                       requests := s.requests ++ [s.nextRequestId] } := by
  obtain ⟨h1, h2, h3, h4, h5⟩ := h
  refine ⟨h1, ?_, ?_, ?_, ?_⟩
  · simp only [List.nodup_append, List.nodup_cons, List.nodup_nil]
    refine ⟨h2, by simp, ?_⟩
    intro a ha
    simp only [List.mem_singleton]
    intro hEq
    exact absurd (h4 a ha) (by simp [hEq])
  · intro t ht
    simp only [List.mem_append, List.mem_singleton] at ht
    rcases ht with hc | rfl
    · exact h3 t hc
    · intro hmem
      exact absurd (h5 _ hmem) (by simp)
  · intro t ht
    simp only [List.mem_append, List.mem_singleton] at ht
    rcases ht with hc | rfl
    · exact Nat.lt_succ_of_lt (h4 t hc)
    · exact Nat.lt_succ_self _
  · intro t ht
    exact Nat.lt_succ_of_lt (h5 t ht)

/-- The fresh token is not among the already-pending ones. -/
theorem fresh_not_mem (s : EngineState) (h : ∀ t ∈ s.requests, t < s.nextRequestId) :
    s.nextRequestId ∉ s.requests := by
  intro hmem
  exact absurd (h _ hmem) (by simp)

/-- Erasing the fresh token right after appending it restores the original
request list. -/
theorem erase_fresh (l : List Nat) (n : Nat) (h : n ∉ l) :
    (l ++ [n]).erase n = l := by
  rw [List.erase_append_right _ h]
  simp

/-- Every step of the worker-variant engine preserves the correlation
invariant. -/
theorem engineStep_inv (s : EngineState) (e : Ev) (h : EngineInv s) :
    EngineInv (engineStep s e) := by
  obtain ⟨h1, h2, h3, h4, h5⟩ := h
  cases e with
  | submit postThrows =>
    show EngineInv (detectBalls s postThrows).1
    unfold detectBalls
    by_cases hw : s.worker
    · simp only [hw, if_true]
      cases postThrows with
      | none => exact register_inv s ⟨h1, h2, h3, h4, h5⟩
      | some detail =>
        have hreg := register_inv s ⟨h1, h2, h3, h4, h5⟩
        have hfresh : s.nextRequestId ∈ s.requests ++ [s.nextRequestId] := by simp
        have := settleOne_inv
          { s with nextRequestId := s.nextRequestId + 1,
                   requests := s.requests ++ [s.nextRequestId] }
          s.nextRequestId
          (Settle.rejected ⟨"Error", "Failed to send message to worker: " ++ detail⟩)
          hreg hfresh
        simpa using this
    · simpa [hw] using ⟨h1, h2, h3, h4, h5⟩
  | response tok error result =>
    show EngineInv (handleMessage s tok error result)
    unfold handleMessage
    by_cases htok : tok ∈ s.requests
    · simp only [htok, if_true]
      exact settleOne_inv s tok _ ⟨h1, h2, h3, h4, h5⟩ htok
    · simpa [htok] using ⟨h1, h2, h3, h4, h5⟩
  | timer tok fileName =>
    show EngineInv (timerFire s tok fileName)
    unfold timerFire
    by_cases htok : tok ∈ s.requests
    · simp only [htok, if_true]
      exact settleOne_inv s tok _ ⟨h1, h2, h3, h4, h5⟩ htok
    · simpa [htok] using ⟨h1, h2, h3, h4, h5⟩
  | workerError message =>
    exact rejectAll_inv s _ false ⟨h1, h2, h3, h4, h5⟩
  | terminate =>
    show EngineInv (terminateWorker s)
    unfold terminateWorker
    by_cases hw : s.worker
    · simp only [hw, if_true]
      exact rejectAll_inv s _ false ⟨h1, h2, h3, h4, h5⟩
    · simpa [hw] using ⟨h1, h2, h3, h4, h5⟩

/-- A response whose token is not in the map leaves the engine untouched. -/
theorem handleMessage_drop (s : EngineState) (tok : Nat)
    (err : Option WorkerErrorPayload) (res : Option DetectionResult)
    (h : tok ∉ s.requests) : handleMessage s tok err res = s := by
  unfold handleMessage
  simp [h]

/-! ## Claim theorems -/

/-- C1: For every detection request, resolve/reject is delivered at most once
per token — every engine event preserves the invariant that the settled-token
log is duplicate-free and that pending tokens are unsettled — and a boundary
response arriving for a token that is no longer in the map (already timed
out, already resolved, or already rejected) is silently dropped: the
`onmessage` handler returns the state unchanged (it appends no outcome and,
being a total function, cannot throw). -/
theorem claim_C1_settle_exactly_once (s : EngineState) (e : Ev) (tok : Nat)
    (error : Option WorkerErrorPayload) (result : Option DetectionResult)
    (hInv : EngineInv s) (hgone : tok ∉ s.requests) :
    EngineInv (engineStep s e) ∧ handleMessage s tok error result = s := by
  refine ⟨engineStep_inv s e hInv, ?_⟩
  unfold handleMessage
  simp [hgone]

/-- Witness for C1: a concrete state with one pending token `0` and one
already-settled token `1`; a late response for `1` is dropped and the
invariant survives the event. -/
theorem claim_C1_settle_exactly_once_witness :
    EngineInv { worker := true, requests := [0], nextRequestId := 2,
                settled := [(1, Settle.rejected ⟨"Error", "boom"⟩)] } ∧
    (1 : Nat) ∉ [0] ∧
    (EngineInv (engineStep
        { worker := true, requests := [0], nextRequestId := 2,
          settled := [(1, Settle.rejected ⟨"Error", "boom"⟩)] }
        (Ev.response 1 none none)) ∧
      handleMessage
        { worker := true, requests := [0], nextRequestId := 2,
          settled := [(1, Settle.rejected ⟨"Error", "boom"⟩)] }
        1 none none =
        { worker := true, requests := [0], nextRequestId := 2,
          settled := [(1, Settle.rejected ⟨"Error", "boom"⟩)] }) :=
  ⟨by decide, by decide,
    claim_C1_settle_exactly_once _ (Ev.response 1 none none) 1 none none
      (by decide) (by decide)⟩

/-- C4: `terminateWorker` on a live engine rejects every pending request with
the `'Worker terminated by explicit call.'` error, clears the map, releases
the boundary (`worker := false`; each pending entry's timer is cleared before
its rejection), and a second call in a row is a no-op — it neither throws
(the function is total) nor re-rejects (the state, including the settled log,
is unchanged). -/
theorem claim_C4_shutdown_idempotent (s : EngineState) (hw : s.worker = true) :
    (terminateWorker s).requests = [] ∧
    (terminateWorker s).worker = false ∧
    (terminateWorker s).settled =
      s.settled ++ s.requests.map
        (fun t => (t, Settle.rejected ⟨"Error", "Worker terminated by explicit call."⟩)) ∧
    terminateWorker (terminateWorker s) = terminateWorker s := by
  refine ⟨by simp [terminateWorker, hw], by simp [terminateWorker, hw],
    by simp [terminateWorker, hw], ?_⟩
  have h1 : (terminateWorker s).worker = false := by simp [terminateWorker, hw]
  conv_lhs => rw [terminateWorker]
  simp [h1]

/-- Witness for C4: shutting down a live engine with two pending requests,
twice. -/
theorem claim_C4_shutdown_idempotent_witness :
    (terminateWorker ⟨true, [0, 1], 2, []⟩).requests = [] ∧
    (terminateWorker ⟨true, [0, 1], 2, []⟩).worker = false ∧
    (terminateWorker ⟨true, [0, 1], 2, []⟩).settled =
      (EngineState.mk true [0, 1] 2 []).settled ++
        (EngineState.mk true [0, 1] 2 []).requests.map
        (fun t => (t, Settle.rejected ⟨"Error", "Worker terminated by explicit call."⟩)) ∧
    terminateWorker (terminateWorker ⟨true, [0, 1], 2, []⟩) =
      terminateWorker ⟨true, [0, 1], 2, []⟩ :=
  claim_C4_shutdown_idempotent ⟨true, [0, 1], 2, []⟩ (by decide)

/-- C5: a fatal worker fault (`onerror`) rejects every currently pending
request with the boundary-failure error `` `Worker failed: ...` ``, leaves the
token map empty, and nulls the worker, so that every subsequent `detectBalls`
call dispatches to the in-process `fallbackDetection` — which (on its load
path) still produces a `DetectionResult` carrying the caller's file name and
original image reference. -/
theorem claim_C5_boundary_fault (s : EngineState) (msg : String) (p : Option String)
    (imageUrl fileName : String) (W H : ℚ) (rand : FallbackRand) (png : String)
    (now : Int) :
    (handleWorkerError s msg).requests = [] ∧
    (handleWorkerError s msg).worker = false ∧
    (handleWorkerError s msg).settled =
      s.settled ++ s.requests.map (fun t => (t, Settle.rejected
        ⟨"Error", "Worker failed: " ++ jsOrStr (some msg) "Underlying worker script error"⟩)) ∧
    detectBalls (handleWorkerError s msg) p = (handleWorkerError s msg, DispatchKind.fallback) ∧
    (fallbackDetection imageUrl fileName W H rand png now).fileName = fileName ∧
    (fallbackDetection imageUrl fileName W H rand png now).originalImageUrl = imageUrl := by
  refine ⟨by simp [handleWorkerError], by simp [handleWorkerError],
    by simp [handleWorkerError], ?_, rfl, rfl⟩
  have h1 : (handleWorkerError s msg).worker = false := by simp [handleWorkerError]
  unfold detectBalls
  simp [h1]

/-- C3: every `detectBalls` call on a live worker arms its own timer with the
30000 ms window; when the timer fires while the token is still pending, the
entry is removed and the promise rejected with the Timeout error carrying the
display name and the elapsed duration (`30s`), and any later worker response
for that token is discarded (`handleMessage` leaves the state unchanged). -/
theorem claim_C3_timeout (s : EngineState) (p : Option String) (tok : Nat) (f : String)
    (err : Option WorkerErrorPayload) (res : Option DetectionResult)
    (hw : s.worker = true) (hnd : s.requests.Nodup) (htok : tok ∈ s.requests) :
    (detectBalls s p).2 = DispatchKind.posted s.nextRequestId 30000 ∧
    timeoutMessage f = "Request to worker timed out after 30s for image " ++ f ∧
    timerFire s tok f =
      { s with requests := s.requests.erase tok,
               settled := s.settled ++ [(tok, Settle.rejected ⟨"Error", timeoutMessage f⟩)] } ∧
    tok ∉ (timerFire s tok f).requests ∧
    handleMessage (timerFire s tok f) tok err res = timerFire s tok f := by
  have hfire : timerFire s tok f =
      { s with requests := s.requests.erase tok,
               settled := s.settled ++ [(tok, Settle.rejected ⟨"Error", timeoutMessage f⟩)] } := by
    simp [timerFire, htok]
  have hout : tok ∉ (timerFire s tok f).requests := by
    rw [hfire]
    simp only [hnd.mem_erase_iff]
    simp
  refine ⟨?_, rfl, hfire, hout, ?_⟩
  · unfold detectBalls
    cases p <;> simp [hw, requestTimeoutMs]
  · unfold handleMessage
    simp [hout]

/-- Witness for C3: a live engine with pending token 5 whose timer fires, then
a late response arrives. -/
theorem claim_C3_timeout_witness :
    (detectBalls ⟨true, [5], 6, []⟩ none).2 = DispatchKind.posted 6 30000 ∧
    timeoutMessage "ball.jpg" =
      "Request to worker timed out after 30s for image " ++ "ball.jpg" ∧
    timerFire ⟨true, [5], 6, []⟩ 5 "ball.jpg" =
      { EngineState.mk true [5] 6 [] with
          requests := [5].erase 5,
          settled := [] ++ [(5, Settle.rejected ⟨"Error", timeoutMessage "ball.jpg"⟩)] } ∧
    5 ∉ (timerFire ⟨true, [5], 6, []⟩ 5 "ball.jpg").requests ∧
    handleMessage (timerFire ⟨true, [5], 6, []⟩ 5 "ball.jpg") 5 none none =
      timerFire ⟨true, [5], 6, []⟩ 5 "ball.jpg" :=
  claim_C3_timeout ⟨true, [5], 6, []⟩ none 5 "ball.jpg" none none
    (by decide) (by decide) (by decide)

/-- C9: if `postMessage` throws synchronously after the `PendingRequest` was
registered, the engine removes the just-registered entry (the request map ends
exactly as it started — no orphaned entry), clears its timer, and rejects the
future with the descriptive `` `Failed to send message to worker: ...` ``
error. -/
theorem claim_C9_post_failure_cleanup (s : EngineState) (detail : String)
    (hw : s.worker = true) (hb : ∀ t ∈ s.requests, t < s.nextRequestId) :
    (detectBalls s (some detail)).1.requests = s.requests ∧
    s.nextRequestId ∉ (detectBalls s (some detail)).1.requests ∧
    (detectBalls s (some detail)).1.settled =
      s.settled ++ [(s.nextRequestId, Settle.rejected
        ⟨"Error", "Failed to send message to worker: " ++ detail⟩)] := by
  have hfresh : s.nextRequestId ∉ s.requests := fresh_not_mem s hb
  have her : (s.requests ++ [s.nextRequestId]).erase s.nextRequestId = s.requests :=
    erase_fresh _ _ hfresh
  refine ⟨?_, ?_, ?_⟩ <;> simp [detectBalls, hw, her, hfresh]

/-- Witness for C9: a send failure on an engine with one pending request. -/
theorem claim_C9_post_failure_cleanup_witness :
    (detectBalls ⟨true, [0], 1, []⟩ (some "worker torn down")).1.requests = [0] ∧
    (1 : Nat) ∉ (detectBalls ⟨true, [0], 1, []⟩ (some "worker torn down")).1.requests ∧
    (detectBalls ⟨true, [0], 1, []⟩ (some "worker torn down")).1.settled =
      [] ++ [(1, Settle.rejected
        ⟨"Error", "Failed to send message to worker: " ++ "worker torn down"⟩)] :=
  claim_C9_post_failure_cleanup ⟨true, [0], 1, []⟩ "worker torn down"
    (by decide) (by decide)

/-- C10: a worker response carrying a known pending token but neither a
`result` nor an `error` field settles the request exactly once: the entry is
removed (its timer having been cleared first), the future is rejected with the
`'Worker returned an invalid message format.'` error, and any further response
for that token is a no-op. -/
theorem claim_C10_invalid_format (s : EngineState) (tok : Nat)
    (err : Option WorkerErrorPayload) (res : Option DetectionResult)
    (hnd : s.requests.Nodup) (htok : tok ∈ s.requests) :
    handleMessage s tok none none =
      { s with requests := s.requests.erase tok,
               settled := s.settled ++ [(tok, Settle.rejected
                 ⟨"Error", "Worker returned an invalid message format."⟩)] } ∧
    tok ∉ (handleMessage s tok none none).requests ∧
    handleMessage (handleMessage s tok none none) tok err res =
      handleMessage s tok none none := by
  have hmsg : handleMessage s tok none none =
      { s with requests := s.requests.erase tok,
               settled := s.settled ++ [(tok, Settle.rejected
                 ⟨"Error", "Worker returned an invalid message format."⟩)] } := by
    simp [handleMessage, htok]
  have hout : tok ∉ (handleMessage s tok none none).requests := by
    rw [hmsg]
    simp only [hnd.mem_erase_iff]
    simp
  exact ⟨hmsg, hout, handleMessage_drop _ _ _ _ hout⟩

/-- Witness for C10: an invalid-format response for pending token 3. -/
theorem claim_C10_invalid_format_witness :
    handleMessage ⟨true, [3], 4, []⟩ 3 none none =
      { EngineState.mk true [3] 4 [] with
          requests := [3].erase 3,
          settled := [] ++ [(3, Settle.rejected
            ⟨"Error", "Worker returned an invalid message format."⟩)] } ∧
    3 ∉ (handleMessage ⟨true, [3], 4, []⟩ 3 none none).requests ∧
    handleMessage (handleMessage ⟨true, [3], 4, []⟩ 3 none none) 3 none none =
      handleMessage ⟨true, [3], 4, []⟩ 3 none none :=
  claim_C10_invalid_format ⟨true, [3], 4, []⟩ 3 none none (by decide) (by decide)

/-- The credential-missing message and the HTTP-error message of the Roboflow
variant are distinct, whatever the status text: they already differ at
character 13 (`k` vs `e`). -/
theorem roboflow_messages_distinct (t : String) :
    "Roboflow API key is required. Please set your API key first." ≠
      "Roboflow API error: " ++ t := by
  intro h
  have hd : ("Roboflow API key is required. Please set your API key first." : String).data =
      ("Roboflow API error: " : String).data ++ t.data := by
    rw [h, String.data_append]
  have h13 := congrArg (fun l => l.getD 13 ' ') hd
  simp only at h13
  rw [List.getD_append _ _ _ _ (by decide)] at h13
  exact absurd h13 (by decide)

/-- The worker's coerced blur kernel is odd for every input. -/
theorem blurKernelVal_odd (o : Option Int) : blurKernelVal o % 2 = 1 := by
  unfold blurKernelVal
  cases o with
  | none => decide
  | some v =>
    by_cases h : v ≠ 0 ∧ 0 < v
    · simp only [if_pos h]
      by_cases h2 : v % 2 = 0
      · simp only [if_pos h2]; omega
      · simp only [if_neg h2]; omega
    · simp only [if_neg h]; decide

/-- C2 (counterexample): for the 200×150 image with one circle at (10,20),
r=5, the worker pipeline's first bounding-box height is 2·5/150 = 1/15 =
0.0666…, not the claimed 0.0667 — the claim's concrete value only holds after
rounding to four decimal places. -/
theorem claim_C2_height_counterexample :
    ¬ ((workerResultDetections (detectedBallsOfMat [10, 20, 5] 1 [0]) 200 150).map
        (fun d => d.bbox.height) = [(0.0667 : ℚ)]) := by
  simp only [workerResultDetections, detectedBallsOfMat, circleToBBox, List.range_succ]
  simp
  norm_num

/-- C2 (amended): for every detected circle the produced normalized bounding
box is `x=(cx-r)/W, y=(cy-r)/H, width=2r/W, height=2r/H` (shown on the whole
worker pipeline from the flat `data32F` circle buffer), and for the 200×150
image with one circle at (10,20), r=5 the first detection's bbox is
`{x:0.025, y:0.1, width:0.05, height:1/15}`, where 1/15 = 0.0666… agrees with
the spec's displayed 0.0667 to four decimal places (it lies within 1/20000 of
it). -/
theorem claim_C2_bbox_mapping (cx cy r u W H : ℚ) :
    workerResultDetections (detectedBallsOfMat [cx, cy, r] 1 [u]) W H =
      [{ confidence := 8/10 + u * (15/100),
         bbox := { x := (cx - r)/W, y := (cy - r)/H, width := r*2/W, height := r*2/H } }] ∧
    workerResultDetections (detectedBallsOfMat [10, 20, 5] 1 [u]) 200 150 =
      [{ confidence := 8/10 + u * (15/100),
         bbox := { x := 0.025, y := 0.1, width := 0.05, height := 1/15 } }] ∧
    |(1 : ℚ)/15 - 0.0667| < 1/20000 := by
  refine ⟨?_, ?_, ?_⟩
  · simp [workerResultDetections, detectedBallsOfMat, circleToBBox, List.range_succ]
  · simp [workerResultDetections, detectedBallsOfMat, circleToBBox, List.range_succ]
    norm_num
  · rw [abs_sub_lt_iff]
    norm_num

/-- C6: the Roboflow variant invoked with a falsy credential (absent or empty)
rejects immediately with the credential error and performs zero `fetch`
invocations; with a credential present, a non-success HTTP status makes it
reject (after exactly one fetch) with the distinct
`` `Roboflow API error: <status> <statusText>` `` error, which surfaces the
status and can never collide with the credential error. -/
theorem claim_C6_credential_gate (key key2 : Option String) (imageUrl : String)
    (env env2 : RoboflowEnv) (st : Nat) (stTxt : String)
    (hkey : jsTruthyStr key = false) (hkey2 : jsTruthyStr key2 = true)
    (hurl : (strStartsWith imageUrl "blob:" || strStartsWith imageUrl "data:") = false)
    (hfetch : env2.fetchOutcome = FetchOutcome.httpError st stTxt) :
    roboflowDetectBalls key imageUrl env =
      (Except.error ⟨"Error",
        "Roboflow API key is required. Please set your API key first."⟩, 0) ∧
    roboflowDetectBalls key2 imageUrl env2 =
      (Except.error ⟨"Error",
        "Roboflow API error: " ++ toString st ++ " " ++ stTxt⟩, 1) ∧
    "Roboflow API key is required. Please set your API key first." ≠
      "Roboflow API error: " ++ toString st ++ " " ++ stTxt := by
  refine ⟨?_, ?_, ?_⟩
  · simp [roboflowDetectBalls, hkey]
  · simp [roboflowDetectBalls, hkey2, hurl, hfetch]
  · have h := roboflow_messages_distinct (toString st ++ " " ++ stTxt)
    simpa [String.append_assoc] using h

/-- Witness for C6: no key vs. key `"k"` against a backend answering
`403 Forbidden`, for a plain (non-blob, non-data) image URL. -/
theorem claim_C6_credential_gate_witness :
    roboflowDetectBalls none "https://x/i.jpg"
        ⟨Except.ok "", FetchOutcome.ok, Except.error ⟨"Error", "x"⟩⟩ =
      (Except.error ⟨"Error",
        "Roboflow API key is required. Please set your API key first."⟩, 0) ∧
    roboflowDetectBalls (some "k") "https://x/i.jpg"
        ⟨Except.ok "", FetchOutcome.httpError 403 "Forbidden", Except.error ⟨"Error", "x"⟩⟩ =
      (Except.error ⟨"Error",
        "Roboflow API error: " ++ toString 403 ++ " " ++ "Forbidden"⟩, 1) ∧
    "Roboflow API key is required. Please set your API key first." ≠
      "Roboflow API error: " ++ toString 403 ++ " " ++ "Forbidden" :=
  claim_C6_credential_gate none (some "k") "https://x/i.jpg"
    ⟨Except.ok "", FetchOutcome.ok, Except.error ⟨"Error", "x"⟩⟩
    ⟨Except.ok "", FetchOutcome.httpError 403 "Forbidden", Except.error ⟨"Error", "x"⟩⟩
    403 "Forbidden" (by decide) (by decide) (by decide) rfl

/-- C7 (counterexample): the `detectWithOpenCV` path passes the even kernel
parameter 4 straight to the Gaussian blur — no coercion to the next odd value
takes place there. -/
theorem claim_C7_even_counterexample :
    detectWithOpenCVKsize (some 4) = 4 ∧ detectWithOpenCVKsize (some 4) % 2 = 0 := by
  decide

/-- C7 (amended): in the worker path of the Local Algorithmic variant the
kernel size actually passed to the Gaussian blur is always odd, and every even
positive kernel-size parameter is coerced to the next odd value; the secondary
`detectWithOpenCV` path, by contrast, passes the parameter through uncoerced. -/
theorem claim_C7_kernel_coercion (o : Option Int) (v : Int)
    (hv : 0 < v) (hev : v % 2 = 0) :
    Odd (blurKernelVal o) ∧
    blurKernelVal (some v) = v + 1 ∧
    Odd (blurKernelVal (some v)) ∧
    detectWithOpenCVKsize (some v) = v := by
  refine ⟨Int.odd_iff.mpr (blurKernelVal_odd o), ?_, Int.odd_iff.mpr (blurKernelVal_odd _), ?_⟩
  · have h : v ≠ 0 ∧ 0 < v := ⟨by omega, hv⟩
    unfold blurKernelVal
    simp only [if_pos h, if_pos hev]
  · have hne : ¬ v = 0 := by omega
    simp [detectWithOpenCVKsize, hne]

/-- Witness for C7: the even positive kernel parameter 8 is coerced to 9 by
the worker and passed through as 8 by `detectWithOpenCV`. -/
theorem claim_C7_kernel_coercion_witness :
    Odd (blurKernelVal (some 8)) ∧
    blurKernelVal (some 8) = 8 + 1 ∧
    Odd (blurKernelVal (some 8)) ∧
    detectWithOpenCVKsize (some 8) = 8 :=
  claim_C7_kernel_coercion (some 8) 8 (by decide) (by decide)

/-- C8: the worker's `finally` releases all four mats whether the try body
succeeds (`none`) or throws at `HoughCircles` (step 13); but on the
`detectWithOpenCV` path a throw inside the try body — e.g. `GaussianBlur`
(step 7) rejecting an even kernel — reaches the `catch` branch with all four
mats allocated and releases none of them: the handles leak, contradicting the
claim's "no allocated handle is leaked regardless of which branch exits". -/
theorem claim_C8_mat_leak :
    workerFinallyReleases (workerSlotsAt none) =
      [MatName.src, MatName.gray, MatName.blurred, MatName.circles] ∧
    workerFinallyReleases (workerSlotsAt (some 13)) =
      [MatName.src, MatName.gray, MatName.blurred, MatName.circles] ∧
    opencvSlotsAt (some 7) =
      { src := true, gray := true, circles := true, blurred := true } ∧
    opencvReleases (some 7) = [] := by
  decide
